import Mathlib

/-!
Shallow embedding of `main.py` of the genia-mcp-server-twilio repository:
the capability dispatcher `process_twilio_request`, the address
normalization, the envelope/JSON encoding it performs, and the webhook
handler `twilio_webhook_catchall`.

Python dynamic values that can appear inside a request's `metadata`
dictionary are modelled by the inductive type `JVal`; Python truthiness,
`==` against a string literal, `str()`/`repr()` and `json.dumps` of the
fixed-shape dictionaries built by the code are modelled explicitly.
-/

/-- A JSON-serializable Python value, as can appear in `metadata` / `params`. -/
inductive JVal where
  | null
  | bool (b : Bool)
  | num (n : Int)
  | str (s : String)
  | dict (kvs : List (String × JVal))
  | list (xs : List JVal)

/-- `d.get(k)` on a Python dict, as an association list (first match wins;
Python dicts have unique keys). -/
def dictGet (kvs : List (String × JVal)) (k : String) : Option JVal :=
  (kvs.find? (fun kv => kv.1 = k)).map (fun kv => kv.2)

/-- Python truthiness of a `JVal` (`bool(v)`). -/
def pyTruthy : JVal → Bool
  | JVal.null => false
  | JVal.bool b => b
  | JVal.num n => n != 0
  | JVal.str s => !s.isEmpty
  | JVal.dict kvs => !kvs.isEmpty
  | JVal.list xs => !xs.isEmpty

/-- Python `v == s` for a string literal `s`: true only when `v` is that string. -/
def pyEqStr (v : JVal) (s : String) : Bool :=
  match v with
  | JVal.str t => t == s
  | _ => false

/-- The Python type name of a value, as it appears in an `AttributeError`. -/
def pyTypeName : JVal → String
  | JVal.null => "NoneType"
  | JVal.bool _ => "bool"
  | JVal.num _ => "int"
  | JVal.str _ => "str"
  | JVal.dict _ => "dict"
  | JVal.list _ => "list"

/-- Lowercase hex digit. -/
def hexDigit (n : Nat) : Char :=
  if n < 10 then Char.ofNat (48 + n) else Char.ofNat (87 + (n % 16))

/-- Four lowercase hex digits, as used by `json.dumps` unicode escapes. -/
def hex4 (n : Nat) : String :=
  String.mk [hexDigit (n / 4096 % 16), hexDigit (n / 256 % 16),
             hexDigit (n / 16 % 16), hexDigit (n % 16)]

/-- Two lowercase hex digits, as used by Python `repr` `\xNN` escapes. -/
def hex2 (n : Nat) : String :=
  String.mk [hexDigit (n / 16 % 16), hexDigit (n % 16)]

/-- `json.dumps` escape of one character (`ensure_ascii=True` default:
everything outside printable ASCII becomes a `\uNNNN` escape, with
surrogate pairs beyond the BMP). -/
def jsonEscapeChar (c : Char) : String :=
  if c = Char.ofNat 34 then "\\\""
  else if c = Char.ofNat 92 then "\\\\"
  else if c = Char.ofNat 8 then "\\b"
  else if c = Char.ofNat 9 then "\\t"
  else if c = Char.ofNat 10 then "\\n"
  else if c = Char.ofNat 12 then "\\f"
  else if c = Char.ofNat 13 then "\\r"
  else if c.val < 32 || c.val > 126 then
    if c.val < 65536 then "\\u" ++ hex4 c.val.toNat
    else
      "\\u" ++ hex4 (55296 + (c.val.toNat - 65536) / 1024) ++
      "\\u" ++ hex4 (56320 + (c.val.toNat - 65536) % 1024)
  else String.singleton c

def jsonEscapeList : List Char → String
  | [] => ""
  | c :: cs => jsonEscapeChar c ++ jsonEscapeList cs

/-- `json.dumps` of a Python string (the quoted, escaped form). -/
def jsonQuote (s : String) : String :=
  "\"" ++ jsonEscapeList s.data ++ "\""

/-- Python `repr` escape of one character inside a string literal quoted
with `q` (ASCII control characters escape as `\xNN`; characters at and
above 0x80 are kept, modelling the printable-text case). -/
def pyReprEscChar (q : Char) (c : Char) : String :=
  if c = Char.ofNat 92 then "\\\\"
  else if c = q then "\\" ++ String.singleton q
  else if c = Char.ofNat 10 then "\\n"
  else if c = Char.ofNat 13 then "\\r"
  else if c = Char.ofNat 9 then "\\t"
  else if c.val < 32 || c.val = 127 then "\\x" ++ hex2 c.val.toNat
  else String.singleton c

def pyReprEscList (q : Char) : List Char → String
  | [] => ""
  | c :: cs => pyReprEscChar q c ++ pyReprEscList q cs

/-- Python `repr` of a string: single quotes unless the string holds a
single quote and no double quote. -/
def pyReprStr (s : String) : String :=
  let sq := Char.ofNat 39
  let dq := Char.ofNat 34
  let q := if s.contains sq && !(s.contains dq) then dq else sq
  String.singleton q ++ pyReprEscList q s.data ++ String.singleton q

mutual
/-- Python `repr` of a `JVal`. -/
def pyRepr : JVal → String
  | JVal.null => "None"
  | JVal.bool true => "True"
  | JVal.bool false => "False"
  | JVal.num n => toString n
  | JVal.str s => pyReprStr s
  | JVal.dict kvs => "\x7b" ++ pyReprEntries kvs ++ "\x7d"
  | JVal.list xs => "[" ++ pyReprElems xs ++ "]"

def pyReprEntries : List (String × JVal) → String
  | [] => ""
  | [(k, v)] => pyReprStr k ++ ": " ++ pyRepr v
  | (k, v) :: rest => pyReprStr k ++ ": " ++ pyRepr v ++ ", " ++ pyReprEntries rest

def pyReprElems : List JVal → String
  | [] => ""
  | [v] => pyRepr v
  | v :: rest => pyRepr v ++ ", " ++ pyReprElems rest
end

/-- Python `str()` of a `JVal`, as interpolated by an f-string. -/
def pyStr : JVal → String
  | JVal.str s => s
  | v => pyRepr v

/-- The text of a Python `AttributeError` raised by `v.attr` when `v`
has no such attribute. -/
def attributeErrorText (v : JVal) (attr : String) : String :=
  "\x27" ++ pyTypeName v ++ "\x27 object has no attribute \x27" ++ attr ++ "\x27"

/-- Python `s.startswith(pre)`. -/
def pyStartswith (s pre : String) : Bool :=
  pre.data.isPrefixOf s.data

/-- Whether `pat` occurs as a contiguous substring of `s` (used to state
facts about encoded JSON texts; every key of a `json.dumps`-encoded
object appears quoted in its output). -/
def listContainsSub (pat : List Char) : List Char → Bool
  | [] => pat.isEmpty
  | c :: rest => pat.isPrefixOf (c :: rest) || listContainsSub pat rest

def strContains (s pat : String) : Bool :=
  listContainsSub pat.data s.data

/-- main.py lines 23-24: `SimpleTextContent`. -/
structure SimpleTextContent where
  text : String

/-- main.py lines 26-29: `SimpleMessage` (metadata : `Dict[str, Any] | None`). -/
structure SimpleMessage where
  role : String
  content : SimpleTextContent
  metadata : Option (List (String × JVal)) := none

/-- Process-wide state of main.py lines 38-51: whether `twilio_client`
was initialized (non-`None`), and `TWILIO_WHATSAPP_NUMBER` (always a set
string when the client is initialized, because of the `all([...])` guard). -/
structure Config where
  twilio_client : Bool
  TWILIO_WHATSAPP_NUMBER : String

/-- One frame yielded by the generator: either a JSON-encoded envelope
string, or the dict `\x7b"event": ev, "data": dat\x7d` end marker. -/
inductive Frame where
  | data (s : String)
  | event (ev : String) (dat : String)
deriving DecidableEq, Repr

/-- Behavior of the external `twilio_client.messages.create` call:
a response carrying `sid`/`status`, a `TwilioRestException` with
`code`/`status`/`msg`, or any other exception (its `str(e)` text). -/
inductive ProviderResult where
  | ok (sid status : String)
  | twilioError (code stat : Int) (msg : String)
  | otherError (msg : String)

/-- The provider as a function of the arguments of the call at main.py
lines 86-90: `from_`, `body` (passed through unchanged, hence any value),
`to`. -/
abbrev Provider := String → JVal → String → ProviderResult

/-- Outcome of the `try` block, main.py lines 68-99: a success yield with
the provider's sid/status, a `TwilioRestException`, or any other
exception (`ValueError`, `AttributeError`, or whatever the provider raised). -/
inductive TryOutcome where
  | successResult (sid status : String)
  | twilioExc (code stat : Int) (msg : String)
  | genericExc (strE : String)

/-- Address normalization of main.py lines 78-79 and 83-84: prepend
`"whatsapp:"` when the address does not start with it. -/
def normalizeWhatsapp (s : String) : String :=
  if pyStartswith s "whatsapp:" then s else "whatsapp:" ++ s

/-- main.py line 57: `message.metadata.get("capability") if message.metadata else None`. -/
def capabilityOf (message : SimpleMessage) : JVal :=
  match message.metadata with
  | some md => (dictGet md "capability").getD JVal.null
  | none => JVal.null

/-- main.py line 58: `message.metadata.get("params", \x7b\x7d) if message.metadata else \x7b\x7d`. -/
def paramsOf (message : SimpleMessage) : JVal :=
  match message.metadata with
  | some md => (dictGet md "params").getD (JVal.dict [])
  | none => JVal.dict []

/-- main.py line 62 message text (the literal has no surrounding
whitespace, so `.strip()` is the identity on it; modelled by `trim`). -/
def clientUnavailableMessage : String :=
  String.trim "Error interno: Cliente de Twilio no inicializado (faltan credenciales)."

/-- main.py line 74: the `ValueError` message for missing `to`/`body`. -/
def validationErrorText : String :=
  "Parámetros \x27to\x27 y \x27body\x27 son requeridos para send_whatsapp_message"

/-- `json.dumps(\x7b"message": m\x7d)` with Python's default separators. -/
def dumpsMessageOnly (m : String) : String :=
  "\x7b\"message\": " ++ jsonQuote m ++ "\x7d"

/-- main.py line 103: `json.dumps(\x7b"message": m, "details": \x7b"twilio_code": e.code, "status": e.status\x7d\x7d)`. -/
def dumpsTwilioErrorRecord (m : String) (code stat : Int) : String :=
  "\x7b\"message\": " ++ jsonQuote m ++ ", \"details\": \x7b\"twilio_code\": " ++
    toString code ++ ", \"status\": " ++ toString stat ++ "\x7d\x7d"

/-- main.py line 92-93: `json.dumps(\x7b"message_sid": sid, "status": status\x7d)`. -/
def dumpsSendResult (sid status : String) : String :=
  "\x7b\"message_sid\": " ++ jsonQuote sid ++ ", \"status\": " ++ jsonQuote status ++ "\x7d"

/-- `json.dumps(msg.dict())` for a `SimpleMessage(role=role, content=SimpleTextContent(text=text))`:
pydantic field order `role`, `content`, `metadata`; `metadata` is `None`. -/
def dumpsEnvelope (role text : String) : String :=
  "\x7b\"role\": " ++ jsonQuote role ++ ", \"content\": \x7b\"text\": " ++
    jsonQuote text ++ "\x7d, \"metadata\": null\x7d"

/-- The `try` block of main.py lines 68-99, linearized: evaluation order is
`params.get("to")` / `params.get("body")` (raises `AttributeError` when
`params` is not a dict), the truthiness check (raises `ValueError`), the
`startswith` normalization of `to_number` (raises `AttributeError` when it
is a truthy non-string), then the provider call. The `else` branch raises
the unsupported-capability `ValueError` of line 99. -/
def tryBody (cfg : Config) (provider : Provider) (capability params : JVal) : TryOutcome :=
  if pyEqStr capability "send_whatsapp_message" then
    match params with
    | JVal.dict p =>
      let to_number := (dictGet p "to").getD JVal.null
      let body := (dictGet p "body").getD JVal.null
      if !(pyTruthy to_number) || !(pyTruthy body) then
        TryOutcome.genericExc validationErrorText
      else
        match to_number with
        | JVal.str t =>
          match provider (normalizeWhatsapp cfg.TWILIO_WHATSAPP_NUMBER) body (normalizeWhatsapp t) with
          | ProviderResult.ok sid status => TryOutcome.successResult sid status
          | ProviderResult.twilioError c s m => TryOutcome.twilioExc c s m
          | ProviderResult.otherError m => TryOutcome.genericExc m
        | v => TryOutcome.genericExc (attributeErrorText v "startswith")
    | v => TryOutcome.genericExc (attributeErrorText v "get")
  else
    TryOutcome.genericExc ("Capacidad no soportada: " ++ pyStr capability)

/-- The (role, content.text) of the single result envelope: the success
yield of main.py lines 92-95, the `TwilioRestException` handler of lines
101-105, or the generic handler of lines 106-110 (whose message embeds
`capability` and `str(e)` via an f-string). -/
def outcomeEnvelope (capability : JVal) : TryOutcome → String × String
  | TryOutcome.successResult sid status => ("assistant", dumpsSendResult sid status)
  | TryOutcome.twilioExc c s m =>
      ("error", dumpsTwilioErrorRecord ("Error de Twilio: " ++ m) c s)
  | TryOutcome.genericExc e =>
      ("error", dumpsMessageOnly
        ("Error inesperado al procesar la solicitud (" ++ pyStr capability ++ "): " ++ e))

/-- main.py lines 54-114, `process_twilio_request`: the full list of frames
the generator yields for one request. When `twilio_client` is `None` the
error envelope of line 62-64 and the end marker of line 65 are yielded and
the generator returns; otherwise the `try` block yields exactly one result
envelope (directly or through an `except` handler) and the `finally` block
of lines 111-113 yields the end marker. -/
def process_twilio_request (cfg : Config) (provider : Provider)
    (message : SimpleMessage) : List Frame :=
  let capability := capabilityOf message
  let params := paramsOf message
  if !cfg.twilio_client then
    [Frame.data (dumpsEnvelope "error" (dumpsMessageOnly clientUnavailableMessage)),
     Frame.event "end" "Stream ended due to error"]
  else
    let r := outcomeEnvelope capability (tryBody cfg provider capability params)
    [Frame.data (dumpsEnvelope r.1 r.2), Frame.event "end" "Stream ended"]

/-- Result of the webhook handler: an `HTTPException` with its status code
and detail, or a JSON response (FastAPI returns HTTP 200 for a plain dict
return value). -/
inductive WebhookResponse where
  | httpError (statusCode : Nat) (detail : String)
  | jsonOk (statusCode : Nat) (body : String)
deriving DecidableEq, Repr

/-- Python truthiness of an `Optional[str]` form field. -/
def pyTruthyOptStr : Option String → Bool
  | none => false
  | some s => !s.isEmpty

/-- main.py lines 131-177, `twilio_webhook_catchall`: reject with HTTP 400
when `Body` or `From` is falsy (absent or empty), else return `\x7b\x7d`
(HTTP 200). Logging is modelled as a no-op, so the `try` body of lines
150-155 cannot raise and the `except` branch of lines 157-177 is
unreachable. -/
def twilio_webhook_catchall (path Body From To ProfileName : Option String) : WebhookResponse :=
  if !(pyTruthyOptStr Body) || !(pyTruthyOptStr From) then
    WebhookResponse.httpError 400 "Mensaje recibido sin cuerpo o remitente"
  else
    WebhookResponse.jsonOk 200 "\x7b\x7d"

theorem isPrefixOf_self_append (l m : List Char) : l.isPrefixOf (l ++ m) = true := by
  induction l with
  | nil => simp [List.isPrefixOf]
  | cons c cs ih => simp [List.isPrefixOf, ih]

theorem pyStartswith_append (pre s : String) : pyStartswith (pre ++ s) pre = true := by
  simp [pyStartswith, String.data_append, isPrefixOf_self_append]

theorem outcomeEnvelope_fst (cap : JVal) (o : TryOutcome) :
    (outcomeEnvelope cap o).1 = "assistant" ∨ (outcomeEnvelope cap o).1 = "error" := by
  cases o <;> simp [outcomeEnvelope]

/-- Claim C1: for every request processed by `process_twilio_request` — on
every exit path (success, client-unavailable, validation failure, provider
failure, unexpected failure) — exactly one result frame (an envelope with
role `assistant` or `error`) is yielded, followed by exactly one
end-of-stream marker frame. -/
theorem dispatcher_yields_one_result_then_end (cfg : Config) (provider : Provider)
    (message : SimpleMessage) :
    ∃ role text dat, (role = "assistant" ∨ role = "error") ∧
      process_twilio_request cfg provider message =
        [Frame.data (dumpsEnvelope role text), Frame.event "end" dat] := by
  obtain ⟨b, num⟩ := cfg
  cases b with
  | false =>
    exact ⟨"error", dumpsMessageOnly clientUnavailableMessage,
      "Stream ended due to error", Or.inr rfl, rfl⟩
  | true =>
    exact ⟨(outcomeEnvelope (capabilityOf message)
              (tryBody ⟨true, num⟩ provider (capabilityOf message) (paramsOf message))).1,
           (outcomeEnvelope (capabilityOf message)
              (tryBody ⟨true, num⟩ provider (capabilityOf message) (paramsOf message))).2,
           "Stream ended", outcomeEnvelope_fst _ _, rfl⟩

/-- Claim C3: when the provider client handle is uninitialized, every
capability request — regardless of capability name, params, or provider
behavior — yields exactly the client-not-initialized error envelope plus
one end-marker frame, and no dispatch or provider call is attempted (the
output is one fixed list, independent of the request and the provider). -/
theorem uninitialized_client_single_error_frame (cfg : Config) (provider : Provider)
    (message : SimpleMessage) (h : cfg.twilio_client = false) :
    process_twilio_request cfg provider message =
      [Frame.data (dumpsEnvelope "error" (dumpsMessageOnly clientUnavailableMessage)),
       Frame.event "end" "Stream ended due to error"] ∧
    (∀ (p₂ : Provider) (m₂ : SimpleMessage),
      process_twilio_request cfg p₂ m₂ = process_twilio_request cfg provider message) := by
  have key : ∀ (p : Provider) (m : SimpleMessage),
      process_twilio_request cfg p m =
        [Frame.data (dumpsEnvelope "error" (dumpsMessageOnly clientUnavailableMessage)),
         Frame.event "end" "Stream ended due to error"] := by
    intro p m
    unfold process_twilio_request
    simp [h]
  exact ⟨key provider message, fun p₂ m₂ => (key p₂ m₂).trans (key provider message).symm⟩

theorem uninitialized_client_single_error_frame_witness :
    process_twilio_request ⟨false, ""⟩ (fun _ _ _ => ProviderResult.ok "SM1" "queued")
        ⟨"user", ⟨"hi"⟩, some [("capability", JVal.str "send_whatsapp_message"),
          ("params", JVal.dict [("to", JVal.str "+1555"), ("body", JVal.str "hello")])]⟩ =
      [Frame.data (dumpsEnvelope "error" (dumpsMessageOnly clientUnavailableMessage)),
       Frame.event "end" "Stream ended due to error"] :=
  (uninitialized_client_single_error_frame ⟨false, ""⟩
    (fun _ _ _ => ProviderResult.ok "SM1" "queued")
    ⟨"user", ⟨"hi"⟩, some [("capability", JVal.str "send_whatsapp_message"),
      ("params", JVal.dict [("to", JVal.str "+1555"), ("body", JVal.str "hello")])]⟩ rfl).1

/-- Claim C9: the end-marker payload is not uniform across exit paths —
with an uninitialized client the end marker carries
"Stream ended due to error", while with an initialized client (success,
validation error, provider error, unexpected error alike) it carries
"Stream ended". -/
theorem end_marker_payload_depends_on_client_state (cfg : Config) (provider : Provider)
    (message : SimpleMessage) :
    (cfg.twilio_client = false →
      ∃ f, process_twilio_request cfg provider message =
        [f, Frame.event "end" "Stream ended due to error"]) ∧
    (cfg.twilio_client = true →
      ∃ f, process_twilio_request cfg provider message =
        [f, Frame.event "end" "Stream ended"]) := by
  constructor
  · intro h
    refine ⟨Frame.data (dumpsEnvelope "error" (dumpsMessageOnly clientUnavailableMessage)), ?_⟩
    unfold process_twilio_request
    simp [h]
  · intro h
    refine ⟨Frame.data (dumpsEnvelope
      (outcomeEnvelope (capabilityOf message)
        (tryBody cfg provider (capabilityOf message) (paramsOf message))).1
      (outcomeEnvelope (capabilityOf message)
        (tryBody cfg provider (capabilityOf message) (paramsOf message))).2), ?_⟩
    unfold process_twilio_request
    simp [h]

theorem end_marker_payload_witness :
    (∃ f, process_twilio_request ⟨false, ""⟩ (fun _ _ _ => ProviderResult.ok "SM1" "queued")
       ⟨"user", ⟨""⟩, none⟩ = [f, Frame.event "end" "Stream ended due to error"]) ∧
    (∃ f, process_twilio_request ⟨true, "+1444"⟩ (fun _ _ _ => ProviderResult.ok "SM1" "queued")
       ⟨"user", ⟨""⟩, none⟩ = [f, Frame.event "end" "Stream ended"]) :=
  ⟨(end_marker_payload_depends_on_client_state ⟨false, ""⟩
      (fun _ _ _ => ProviderResult.ok "SM1" "queued") ⟨"user", ⟨""⟩, none⟩).1 rfl,
   (end_marker_payload_depends_on_client_state ⟨true, "+1444"⟩
      (fun _ _ _ => ProviderResult.ok "SM1" "queued") ⟨"user", ⟨""⟩, none⟩).2 rfl⟩

/-- Claim C10: noninterference — the frame sequence depends only on the
request's metadata, the client-initialization state and the provider; two
structurally valid requests that differ only in role and content.text
(including role strings outside user/assistant/error) produce identical
frame sequences. -/
theorem dispatcher_depends_only_on_metadata (cfg : Config) (provider : Provider)
    (m₁ m₂ : SimpleMessage) (h : m₁.metadata = m₂.metadata) :
    process_twilio_request cfg provider m₁ = process_twilio_request cfg provider m₂ := by
  unfold process_twilio_request capabilityOf paramsOf
  rw [h]

theorem dispatcher_depends_only_on_metadata_witness :
    process_twilio_request ⟨true, "+1444"⟩ (fun _ _ _ => ProviderResult.ok "SM1" "queued")
      ⟨"user", ⟨"some text"⟩, some [("capability", JVal.str "send_whatsapp_message")]⟩ =
    process_twilio_request ⟨true, "+1444"⟩ (fun _ _ _ => ProviderResult.ok "SM1" "queued")
      ⟨"strange-role", ⟨"other text"⟩, some [("capability", JVal.str "send_whatsapp_message")]⟩ :=
  dispatcher_depends_only_on_metadata ⟨true, "+1444"⟩
    (fun _ _ _ => ProviderResult.ok "SM1" "queued")
    ⟨"user", ⟨"some text"⟩, some [("capability", JVal.str "send_whatsapp_message")]⟩
    ⟨"strange-role", ⟨"other text"⟩, some [("capability", JVal.str "send_whatsapp_message")]⟩ rfl

/-- Claim C5: for every request with an initialized client whose capability
is anything other than the string "send_whatsapp_message" (including absent
metadata or null capability), the dispatcher yields exactly one error-role
frame whose message embeds the requested capability verbatim (via
`str(capability)`), followed by one end-marker frame, and the provider is
never invoked (the output is the same for any two providers). -/
theorem unsupported_capability_single_error_frame (cfg : Config) (p₁ p₂ : Provider)
    (message : SimpleMessage)
    (hinit : cfg.twilio_client = true)
    (hcap : pyEqStr (capabilityOf message) "send_whatsapp_message" = false) :
    process_twilio_request cfg p₁ message =
      [Frame.data (dumpsEnvelope "error" (dumpsMessageOnly
        ("Error inesperado al procesar la solicitud (" ++ pyStr (capabilityOf message) ++
          "): " ++ ("Capacidad no soportada: " ++ pyStr (capabilityOf message))))),
       Frame.event "end" "Stream ended"] ∧
    process_twilio_request cfg p₁ message = process_twilio_request cfg p₂ message := by
  have key : ∀ (p : Provider),
      process_twilio_request cfg p message =
        [Frame.data (dumpsEnvelope "error" (dumpsMessageOnly
          ("Error inesperado al procesar la solicitud (" ++ pyStr (capabilityOf message) ++
            "): " ++ ("Capacidad no soportada: " ++ pyStr (capabilityOf message))))),
         Frame.event "end" "Stream ended"] := by
    intro p
    unfold process_twilio_request tryBody
    simp [hinit, hcap, outcomeEnvelope]
  exact ⟨key p₁, (key p₁).trans (key p₂).symm⟩

theorem unsupported_capability_witness :
    process_twilio_request ⟨true, "+1444"⟩ (fun _ _ _ => ProviderResult.ok "SM1" "queued")
        ⟨"user", ⟨""⟩, some [("capability", JVal.str "unknown_capability")]⟩ =
      [Frame.data (dumpsEnvelope "error" (dumpsMessageOnly
        "Error inesperado al procesar la solicitud (unknown_capability): Capacidad no soportada: unknown_capability")),
       Frame.event "end" "Stream ended"] := by
  have h := (unsupported_capability_single_error_frame ⟨true, "+1444"⟩
    (fun _ _ _ => ProviderResult.ok "SM1" "queued")
    (fun _ _ _ => ProviderResult.ok "SM1" "queued")
    ⟨"user", ⟨""⟩, some [("capability", JVal.str "unknown_capability")]⟩ rfl rfl).1
  rw [h]
  rfl

/-- Claim C2, counterexample: the claim says the validation error message
names exactly which required parameter was unmet, but the code raises one
fixed message naming both. Two requests — one missing `to` (with `body`
present), one missing `body` (with `to` present) — produce identical frame
sequences, and the common message mentions both parameter names, so it
cannot identify which one was missing. -/
theorem validation_message_does_not_identify_missing_param :
    (process_twilio_request ⟨true, "+1444"⟩ (fun _ _ _ => ProviderResult.ok "SM1" "queued")
       ⟨"user", ⟨""⟩, some [("capability", JVal.str "send_whatsapp_message"),
         ("params", JVal.dict [("body", JVal.str "hello")])]⟩ =
     process_twilio_request ⟨true, "+1444"⟩ (fun _ _ _ => ProviderResult.ok "SM1" "queued")
       ⟨"user", ⟨""⟩, some [("capability", JVal.str "send_whatsapp_message"),
         ("params", JVal.dict [("to", JVal.str "+1555")])]⟩) ∧
    process_twilio_request ⟨true, "+1444"⟩ (fun _ _ _ => ProviderResult.ok "SM1" "queued")
       ⟨"user", ⟨""⟩, some [("capability", JVal.str "send_whatsapp_message"),
         ("params", JVal.dict [("body", JVal.str "hello")])]⟩ =
      [Frame.data (dumpsEnvelope "error" (dumpsMessageOnly
        ("Error inesperado al procesar la solicitud (send_whatsapp_message): " ++
          validationErrorText))),
       Frame.event "end" "Stream ended"] ∧
    strContains validationErrorText "\x27to\x27" = true ∧
    strContains validationErrorText "\x27body\x27" = true :=
  ⟨rfl, rfl, by decide, by decide⟩

/-- Claim C2 as amended: for every send_whatsapp_message request (client
initialized) in which params.to or params.body is missing or falsy, the
dispatcher yields exactly one error-role frame whose message states that
parameters `to` and `body` are required (one fixed message, regardless of
which was missing), followed by one end-marker frame, and the provider is
never invoked. -/
theorem validation_failure_single_error_frame (cfg : Config) (p₁ p₂ : Provider)
    (message : SimpleMessage) (prm : List (String × JVal))
    (hinit : cfg.twilio_client = true)
    (hcap : capabilityOf message = JVal.str "send_whatsapp_message")
    (hprm : paramsOf message = JVal.dict prm)
    (hmiss : pyTruthy ((dictGet prm "to").getD JVal.null) = false ∨
             pyTruthy ((dictGet prm "body").getD JVal.null) = false) :
    process_twilio_request cfg p₁ message =
      [Frame.data (dumpsEnvelope "error" (dumpsMessageOnly
        ("Error inesperado al procesar la solicitud (" ++ pyStr (capabilityOf message) ++
          "): " ++ validationErrorText))),
       Frame.event "end" "Stream ended"] ∧
    process_twilio_request cfg p₁ message = process_twilio_request cfg p₂ message := by
  have key : ∀ (p : Provider),
      process_twilio_request cfg p message =
        [Frame.data (dumpsEnvelope "error" (dumpsMessageOnly
          ("Error inesperado al procesar la solicitud (" ++ pyStr (capabilityOf message) ++
            "): " ++ validationErrorText))),
         Frame.event "end" "Stream ended"] := by
    intro p
    unfold process_twilio_request tryBody
    rcases hmiss with h | h <;>
      simp [hinit, hcap, hprm, h, pyEqStr, outcomeEnvelope]
  exact ⟨key p₁, (key p₁).trans (key p₂).symm⟩

theorem validation_failure_witness :
    process_twilio_request ⟨true, "+1444"⟩ (fun _ _ _ => ProviderResult.ok "SM1" "queued")
        ⟨"user", ⟨""⟩, some [("capability", JVal.str "send_whatsapp_message"),
          ("params", JVal.dict [("to", JVal.str "+1555")])]⟩ =
      [Frame.data (dumpsEnvelope "error" (dumpsMessageOnly
        ("Error inesperado al procesar la solicitud (send_whatsapp_message): " ++
          validationErrorText))),
       Frame.event "end" "Stream ended"] := by
  have h := (validation_failure_single_error_frame ⟨true, "+1444"⟩
    (fun _ _ _ => ProviderResult.ok "SM1" "queued")
    (fun _ _ _ => ProviderResult.ok "SM1" "queued")
    ⟨"user", ⟨""⟩, some [("capability", JVal.str "send_whatsapp_message"),
      ("params", JVal.dict [("to", JVal.str "+1555")])]⟩
    [("to", JVal.str "+1555")] rfl rfl rfl (Or.inr rfl)).1
  rw [h]
  rfl

theorem pyTruthy_str (s : String) : pyTruthy (JVal.str s) = !s.isEmpty := rfl

/-- Claim C6, counterexample: the claim says a provider rejection with code
21211 yields an error frame whose `details.provider_code` equals 21211, but
the code stores the provider code under the key `twilio_code`. At a
concrete rejected send the error record text (every key of a
`json.dumps`-encoded object appears quoted in its output) contains no
"provider_code" key at all, while `"twilio_code": 21211` is present. -/
theorem twilio_error_details_no_provider_code_key :
    process_twilio_request ⟨true, "+1444"⟩
        (fun _ _ _ => ProviderResult.twilioError 21211 400
          "The \x27To\x27 number +1555 is not a valid phone number.")
        ⟨"user", ⟨""⟩, some [("capability", JVal.str "send_whatsapp_message"),
          ("params", JVal.dict [("to", JVal.str "+1555"), ("body", JVal.str "hello")])]⟩ =
      [Frame.data (dumpsEnvelope "error" (dumpsTwilioErrorRecord
        ("Error de Twilio: The \x27To\x27 number +1555 is not a valid phone number.")
        21211 400)),
       Frame.event "end" "Stream ended"] ∧
    strContains (dumpsTwilioErrorRecord
        ("Error de Twilio: The \x27To\x27 number +1555 is not a valid phone number.")
        21211 400) "provider_code" = false ∧
    strContains (dumpsTwilioErrorRecord
        ("Error de Twilio: The \x27To\x27 number +1555 is not a valid phone number.")
        21211 400) "\"twilio_code\": 21211" = true :=
  ⟨rfl, by decide, by decide⟩

/-- Claim C6 as amended: when the provider rejects a send with a
`TwilioRestException` carrying code, status and message, the dispatcher
yields one error-role envelope whose content.text is the JSON encoding of
an error record preserving the provider's message, code and status — under
the keys `message`, `details.twilio_code` and `details.status` (not
`details.provider_code`); in particular code 21211 yields
`details.twilio_code == 21211`. -/
theorem twilio_error_preserves_code_status_message (cfg : Config) (provider : Provider)
    (message : SimpleMessage) (prm : List (String × JVal)) (t : String) (bodyV : JVal)
    (c s : Int) (m : String)
    (hinit : cfg.twilio_client = true)
    (hcap : capabilityOf message = JVal.str "send_whatsapp_message")
    (hprm : paramsOf message = JVal.dict prm)
    (hto : dictGet prm "to" = some (JVal.str t))
    (htt : t.isEmpty = false)
    (hbody : dictGet prm "body" = some bodyV)
    (hbt : pyTruthy bodyV = true)
    (hprov : provider (normalizeWhatsapp cfg.TWILIO_WHATSAPP_NUMBER) bodyV (normalizeWhatsapp t)
             = ProviderResult.twilioError c s m) :
    process_twilio_request cfg provider message =
      [Frame.data (dumpsEnvelope "error"
         (dumpsTwilioErrorRecord ("Error de Twilio: " ++ m) c s)),
       Frame.event "end" "Stream ended"] := by
  unfold process_twilio_request tryBody
  simp [hinit, hcap, hprm, hto, hbody, hbt, htt, hprov, pyEqStr, pyTruthy_str, outcomeEnvelope]

theorem twilio_error_preserves_witness :
    process_twilio_request ⟨true, "+1444"⟩
        (fun _ _ _ => ProviderResult.twilioError 21211 400 "invalid To number")
        ⟨"user", ⟨""⟩, some [("capability", JVal.str "send_whatsapp_message"),
          ("params", JVal.dict [("to", JVal.str "+1555"), ("body", JVal.str "hello")])]⟩ =
      [Frame.data (dumpsEnvelope "error"
         (dumpsTwilioErrorRecord ("Error de Twilio: " ++ "invalid To number") 21211 400)),
       Frame.event "end" "Stream ended"] :=
  twilio_error_preserves_code_status_message ⟨true, "+1444"⟩
    (fun _ _ _ => ProviderResult.twilioError 21211 400 "invalid To number")
    ⟨"user", ⟨""⟩, some [("capability", JVal.str "send_whatsapp_message"),
      ("params", JVal.dict [("to", JVal.str "+1555"), ("body", JVal.str "hello")])]⟩
    [("to", JVal.str "+1555"), ("body", JVal.str "hello")] "+1555" (JVal.str "hello")
    21211 400 "invalid To number" rfl rfl rfl rfl rfl rfl rfl rfl

/-- Claim C7: for every valid send_whatsapp_message request (client
initialized, `to` and `body` non-empty strings) where the provider returns
sid and status, the dispatcher yields exactly one assistant-role envelope
whose content.text is the JSON encoding of
`\x7b"message_sid": sid, "status": status\x7d`, followed by the end marker. -/
theorem send_success_single_assistant_frame (cfg : Config) (provider : Provider)
    (message : SimpleMessage) (prm : List (String × JVal)) (t b sid status : String)
    (hinit : cfg.twilio_client = true)
    (hcap : capabilityOf message = JVal.str "send_whatsapp_message")
    (hprm : paramsOf message = JVal.dict prm)
    (hto : dictGet prm "to" = some (JVal.str t))
    (htt : t.isEmpty = false)
    (hbody : dictGet prm "body" = some (JVal.str b))
    (hbt : b.isEmpty = false)
    (hprov : provider (normalizeWhatsapp cfg.TWILIO_WHATSAPP_NUMBER) (JVal.str b)
               (normalizeWhatsapp t) = ProviderResult.ok sid status) :
    process_twilio_request cfg provider message =
      [Frame.data (dumpsEnvelope "assistant" (dumpsSendResult sid status)),
       Frame.event "end" "Stream ended"] := by
  unfold process_twilio_request tryBody
  simp [hinit, hcap, hprm, hto, hbody, hbt, htt, hprov, pyEqStr, pyTruthy_str, outcomeEnvelope]

theorem send_success_witness :
    process_twilio_request ⟨true, "+1444"⟩ (fun _ _ _ => ProviderResult.ok "SM123" "queued")
        ⟨"user", ⟨""⟩, some [("capability", JVal.str "send_whatsapp_message"),
          ("params", JVal.dict [("to", JVal.str "+1555"), ("body", JVal.str "hello")])]⟩ =
      [Frame.data (dumpsEnvelope "assistant" (dumpsSendResult "SM123" "queued")),
       Frame.event "end" "Stream ended"] ∧
    dumpsSendResult "SM123" "queued" =
      "\x7b\"message_sid\": \"SM123\", \"status\": \"queued\"\x7d" :=
  ⟨send_success_single_assistant_frame ⟨true, "+1444"⟩
    (fun _ _ _ => ProviderResult.ok "SM123" "queued")
    ⟨"user", ⟨""⟩, some [("capability", JVal.str "send_whatsapp_message"),
      ("params", JVal.dict [("to", JVal.str "+1555"), ("body", JVal.str "hello")])]⟩
    [("to", JVal.str "+1555"), ("body", JVal.str "hello")] "+1555" "hello" "SM123" "queued"
    rfl rfl rfl rfl rfl rfl rfl rfl, by decide⟩

/-- Claim C4: phone-address normalization (prepend "whatsapp:" when absent)
is idempotent; an already-prefixed input passes through unchanged; the
inputs "+15551234567" and "whatsapp:+15551234567" normalize to the
identical value; and the rule is applied to both the `to` and the `from`
address — the dispatcher consults the provider only at
`normalizeWhatsapp from` and `normalizeWhatsapp to`, so two providers that
agree there produce the same frame sequence. -/
theorem whatsapp_prefix_normalization_idempotent :
    (∀ s, normalizeWhatsapp (normalizeWhatsapp s) = normalizeWhatsapp s) ∧
    (∀ s, pyStartswith s "whatsapp:" = true → normalizeWhatsapp s = s) ∧
    normalizeWhatsapp "+15551234567" = normalizeWhatsapp "whatsapp:+15551234567" ∧
    (∀ (cfg : Config) (p₁ p₂ : Provider) (message : SimpleMessage)
       (prm : List (String × JVal)) (t : String) (bodyV : JVal),
      cfg.twilio_client = true →
      capabilityOf message = JVal.str "send_whatsapp_message" →
      paramsOf message = JVal.dict prm →
      dictGet prm "to" = some (JVal.str t) → t.isEmpty = false →
      dictGet prm "body" = some bodyV → pyTruthy bodyV = true →
      p₁ (normalizeWhatsapp cfg.TWILIO_WHATSAPP_NUMBER) bodyV (normalizeWhatsapp t) =
        p₂ (normalizeWhatsapp cfg.TWILIO_WHATSAPP_NUMBER) bodyV (normalizeWhatsapp t) →
      process_twilio_request cfg p₁ message = process_twilio_request cfg p₂ message) := by
  refine ⟨?_, ?_, ?_, ?_⟩
  · intro s
    unfold normalizeWhatsapp
    by_cases h : pyStartswith s "whatsapp:" = true
    · simp [h]
    · simp [h, pyStartswith_append]
  · intro s h
    unfold normalizeWhatsapp
    simp [h]
  · rfl
  · intro cfg p₁ p₂ message prm t bodyV hinit hcap hprm hto htt hbody hbt hpe
    unfold process_twilio_request tryBody
    simp [hinit, hcap, hprm, hto, hbody, hbt, htt, pyEqStr, pyTruthy_str, hpe]

theorem whatsapp_prefix_normalization_witness :
    normalizeWhatsapp (normalizeWhatsapp "+15551234567") = normalizeWhatsapp "+15551234567" ∧
    normalizeWhatsapp "whatsapp:+15551234567" = "whatsapp:+15551234567" ∧
    process_twilio_request ⟨true, "+1444"⟩ (fun _ _ _ => ProviderResult.ok "SM1" "queued")
        ⟨"user", ⟨""⟩, some [("capability", JVal.str "send_whatsapp_message"),
          ("params", JVal.dict [("to", JVal.str "+1555"), ("body", JVal.str "hello")])]⟩ =
      process_twilio_request ⟨true, "+1444"⟩
        (fun _ _ toAddr => if toAddr = "whatsapp:+1555" then ProviderResult.ok "SM1" "queued"
          else ProviderResult.otherError "unexpected")
        ⟨"user", ⟨""⟩, some [("capability", JVal.str "send_whatsapp_message"),
          ("params", JVal.dict [("to", JVal.str "+1555"), ("body", JVal.str "hello")])]⟩ :=
  ⟨whatsapp_prefix_normalization_idempotent.1 "+15551234567",
   whatsapp_prefix_normalization_idempotent.2.1 "whatsapp:+15551234567" (by decide),
   whatsapp_prefix_normalization_idempotent.2.2.2 ⟨true, "+1444"⟩
     (fun _ _ _ => ProviderResult.ok "SM1" "queued")
     (fun _ _ toAddr => if toAddr = "whatsapp:+1555" then ProviderResult.ok "SM1" "queued"
       else ProviderResult.otherError "unexpected")
     ⟨"user", ⟨""⟩, some [("capability", JVal.str "send_whatsapp_message"),
       ("params", JVal.dict [("to", JVal.str "+1555"), ("body", JVal.str "hello")])]⟩
     [("to", JVal.str "+1555"), ("body", JVal.str "hello")] "+1555" (JVal.str "hello")
     rfl rfl rfl rfl rfl rfl rfl rfl⟩

/-- Claim C8: for every webhook request, if the form field Body or From is
missing or empty the handler fails with HTTP status 400 and a descriptive
message (and performs no further action); otherwise it returns HTTP 200
with an empty JSON object as the body. -/
theorem webhook_body_from_validation (path Body From To ProfileName : Option String) :
    ((pyTruthyOptStr Body = false ∨ pyTruthyOptStr From = false) →
      twilio_webhook_catchall path Body From To ProfileName =
        WebhookResponse.httpError 400 "Mensaje recibido sin cuerpo o remitente") ∧
    (pyTruthyOptStr Body = true → pyTruthyOptStr From = true →
      twilio_webhook_catchall path Body From To ProfileName =
        WebhookResponse.jsonOk 200 "\x7b\x7d") := by
  constructor
  · intro h
    unfold twilio_webhook_catchall
    rcases h with h | h <;> simp [h]
  · intro h1 h2
    unfold twilio_webhook_catchall
    simp [h1, h2]

theorem webhook_body_from_validation_witness :
    twilio_webhook_catchall none (some "hi") (some "+15551234567") none none =
      WebhookResponse.jsonOk 200 "\x7b\x7d" ∧
    twilio_webhook_catchall none none (some "+15551234567") none none =
      WebhookResponse.httpError 400 "Mensaje recibido sin cuerpo o remitente" :=
  ⟨(webhook_body_from_validation none (some "hi") (some "+15551234567") none none).2 rfl rfl,
   (webhook_body_from_validation none none (some "+15551234567") none none).1 (Or.inl rfl)⟩
